import Mathlib

/-!
Shallow embedding of `zendriver/core/browser.py` (class `Browser` and its
target registry, plus the pieces of `start`/`stop`/`get` the claims need).

Modelling conventions:
* A `TargetInfo` is the record of CDP target fields carried by lifecycle
  events and by the `get_targets` snapshot.
* A `Tab` is one tracked registry entry (`Tab`/`Connection` object in the
  source): its websocket address, its current `target` record, and two
  identity tokens — `entryId` for the Python identity of the entry object
  itself and `recordId` for the Python identity of the `TargetInfo` object
  currently stored in its `.target` attribute.  Fresh identities are drawn
  from an allocation counter threaded through the operations, so that
  "mutated in place" (identity preserved) is distinguishable from
  "replaced by a new object" (fresh identity).
* Python exceptions escaping a function are modelled with `Except String`;
  the error string names the Python exception.
* `logger.getEffectiveLevel()` is the numeric Python logging level
  (DEBUG = 10, INFO = 20).
-/

structure TargetInfo where
  target_id : String
  type_ : String
  title : String
  url : String
  attached : Bool
  browser_context_id : Option String
deriving Repr, DecidableEq

structure Tab where
  addr : String
  target : TargetInfo
  entryId : Nat
  recordId : Nat
deriving Repr, DecidableEq

abbrev Registry := List Tab

/-- The four lifecycle events consumed by `Browser._handle_target_update`
(the `Union` in its signature): `TargetCreated`, `TargetInfoChanged`,
`TargetDestroyed`, `TargetCrashed`. -/
inductive TargetEvent where
  | created (info : TargetInfo)
  | infoChanged (info : TargetInfo)
  | destroyed (target_id : String)
  | crashed (target_id : String) (status : String) (errorCode : Int)
deriving Repr, DecidableEq

def isPage (t : Tab) : Bool := t.target.type_ == "page"

/-- `current_tab.target = target_info` on the first entry matching the id:
the entry object is kept (`entryId` preserved) but its `.target` attribute
now points at the event's record object (fresh `recordId`). -/
def replaceFirstTarget (info : TargetInfo) (newRecordId : Nat) : Registry → Registry
  | [] => []
  | t :: ts =>
    if t.target.target_id == info.target_id then
      { t with target := info, recordId := newRecordId } :: ts
    else
      t :: replaceFirstTarget info newRecordId ts

/-- `existing_tab.target.__dict__.update(t.__dict__)` on the first entry
matching the id: the held record object is mutated in place (all of the
snapshot record's fields overwrite it), so `recordId` is preserved. -/
def mergeFirstTarget (info : TargetInfo) : Registry → Registry
  | [] => []
  | t :: ts =>
    if t.target.target_id == info.target_id then
      { t with target := info } :: ts
    else
      t :: mergeFirstTarget info ts

/-- `self.targets.remove(current_tab)` where `current_tab` is the first
entry matching the predicate. -/
def removeFirstBy (p : Tab → Bool) : Registry → Registry
  | [] => []
  | t :: ts => if p t then ts else t :: removeFirstBy p ts

/-- `Browser._handle_target_update` (browser.py lines 180-240).
`lvl` is `logger.getEffectiveLevel()`, `n` the allocation counter.
Returns the new registry and counter, or the Python exception escaping
the handler.

* `TargetInfoChanged`: `next(filter(...))` raises `StopIteration` when no
  entry matches; otherwise `current_tab.target = target_info` is executed
  only inside the `if logger.getEffectiveLevel() <= 10:` block.
* `TargetCreated`: a new `Tab` bound to
  `ws://{host}:{port}/devtools/{type or page}/{target_id}` is appended.
* `TargetDestroyed`: `next(filter(...))` raises `StopIteration` when no
  entry matches; otherwise the first matching entry is removed.
* `TargetCrashed`: no `isinstance` branch matches, the handler falls
  through and does nothing. -/
def handle_target_update (lvl : Nat) (host : String) (port : Nat)
    (reg : Registry) (n : Nat) : TargetEvent → Except String (Registry × Nat)
  | .infoChanged info =>
    match reg.find? (fun t => t.target.target_id == info.target_id) with
    | none => .error "StopIteration"
    | some _ =>
      if lvl ≤ 10 then
        .ok (replaceFirstTarget info n reg, n + 1)
      else
        .ok (reg, n)
  | .created info =>
    let kind := if info.type_ == "" then "page" else info.type_
    let addr := "ws://" ++ host ++ ":" ++ toString port ++ "/devtools/" ++
      kind ++ "/" ++ info.target_id
    .ok (reg ++ [⟨addr, info, n, n + 1⟩], n + 2)
  | .destroyed tid =>
    match reg.find? (fun t => t.target.target_id == tid) with
    | none => .error "StopIteration"
    | some _ => .ok (removeFirstBy (fun t => t.target.target_id == tid) reg, n)
  | .crashed _ _ _ => .ok (reg, n)

/-- Processing a sequence of lifecycle events through the handler; an
escaping exception aborts the sequence. -/
def handle_events (lvl : Nat) (host : String) (port : Nat) :
    Registry × Nat → List TargetEvent → Except String (Registry × Nat)
  | s, [] => .ok s
  | (reg, n), e :: es =>
    match handle_target_update lvl host port reg n e with
    | .error msg => .error msg
    | .ok s' => handle_events lvl host port s' es

/-- `Browser.update_targets` (browser.py lines 524-546): for each snapshot
record, merge into the first existing entry with the same `target_id`
(in-place `__dict__.update`, `break`), or — `for`/`else` — append a new
entry bound to `ws://{host}:{port}/devtools/page/{target_id}`. -/
def update_targets (host : String) (port : Nat) :
    Registry × Nat → List TargetInfo → Registry × Nat
  | s, [] => s
  | (reg, n), t :: ts =>
    if reg.any (fun e => e.target.target_id == t.target_id) then
      update_targets host port (mergeFirstTarget t reg, n) ts
    else
      update_targets host port
        (reg ++ [⟨"ws://" ++ host ++ ":" ++ toString port ++ "/devtools/page/" ++
          t.target_id, t, n, n + 1⟩], n + 2) ts

/-- Stable insertion (descending by a Bool key) of `x` in front of the
first element whose key is not above `x`'s: the semantics of Python's
stable `sorted(..., key=..., reverse=True)` built by insertion from the
right. -/
def insertDesc (key : Tab → Bool) (x : Tab) : Registry → Registry
  | [] => [x]
  | y :: ys => if !(key y) || key x then x :: y :: ys else y :: insertDesc key x ys

/-- `sorted(self.targets, key=lambda x: x.type_ == "page", reverse=True)`:
stable sort putting page-kind entries first, discovery order preserved
within each class. -/
def sortByPageDesc (reg : Registry) : Registry := reg.foldr (insertDesc isPage) []

/-- `Browser.tabs` (browser.py lines 148-154): the tracked entries of
type "page", in tracked order. -/
def tabs (reg : Registry) : Registry := reg.filter isPage

/-- `Browser.main_tab` (browser.py lines 143-146):
`sorted(self.targets, key=lambda x: x.type_ == "page", reverse=True)[0]`.
Indexing `[0]` on an empty list raises `IndexError`. -/
def main_tab (reg : Registry) : Except String Tab :=
  match sortByPageDesc reg with
  | [] => .error "IndexError: list index out of range"
  | t :: _ => .ok t

/-- Observable actions of `Browser.get`. `sleepSettle` is the fixed
`await connection.sleep(0.25)` before returning. -/
inductive GetAction where
  | createTarget (url : String) (newWindow : Bool)
  | navigate (url : String) (onEntry : Nat)
  | sleepSettle
deriving Repr, DecidableEq

/-- `Browser.get` (browser.py lines 242-283).  `connected` models
`self.connection` being set; `createdTargetId` is the target id the
`create_target` command would return on the new-tab/new-window path.
With neither flag set, the first page-kind entry is taken
(`next(filter(lambda item: item.type_ == "page", self.targets))`,
raising `StopIteration` when there is none), `page.navigate(url)` is sent
on it, then the fixed settle sleep runs and the entry is returned. -/
def browser_get (connected : Bool) (reg : Registry) (createdTargetId : String)
    (url : String) (new_tab : Bool) (new_window : Bool) :
    Except String (List GetAction × Tab) :=
  if !connected then
    .error "RuntimeError: Browser not yet started. use await browser.start()"
  else if new_tab || new_window then
    match reg.find? (fun t => isPage t && t.target.target_id == createdTargetId) with
    | none => .error "StopIteration"
    | some conn => .ok ([.createTarget url new_window, .sleepSettle], conn)
  else
    match reg.find? isPage with
    | none => .error "StopIteration"
    | some conn => .ok ([.navigate url conn.entryId, .sleepSettle], conn)

/-- Per-process outcome flags for one run of `Browser.stop`:
whether `terminate()` hits an already-reaped process
(`ProcessLookupError`), whether `communicate()` returns within the 5s
`wait_for` (so `returncode` is set) or times out (so `returncode` is
still `None`), and whether `kill()` hits a vanished process. -/
structure ProcModel where
  goneAtTerminate : Bool
  exitsWithinWait : Bool
  goneAtKill : Bool
deriving Repr, DecidableEq

inductive StopStep where
  | closeConnection
  | terminate
  | waitProcess
  | kill
  | cleanupProfile
deriving Repr, DecidableEq

inductive PyExc where
  | processLookupError
deriving Repr, DecidableEq

/-- The `try:` body of the process part of `Browser.stop` (browser.py
lines 590-614): `terminate()`, then `communicate()` under a 5s `wait_for`
whose `TimeoutError` is caught and ignored, then
`if self._process.returncode is not None: self._process.kill()`.
`returncode is not None` holds exactly when the process exited within the
wait.  Returns the steps performed and the exception escaping the body,
if any. -/
def stop_process_try (p : ProcModel) : List StopStep × Option PyExc :=
  if p.goneAtTerminate then
    ([StopStep.terminate], some PyExc.processLookupError)
  else if p.exitsWithinWait then
    if p.goneAtKill then
      ([StopStep.terminate, StopStep.waitProcess, StopStep.kill],
        some PyExc.processLookupError)
    else
      ([StopStep.terminate, StopStep.waitProcess, StopStep.kill], none)
  else
    ([StopStep.terminate, StopStep.waitProcess], none)

structure StopState where
  hasConnection : Bool
  hasProcess : Bool
  proc : ProcModel
deriving Repr, DecidableEq

/-- `Browser.stop` (browser.py lines 578-623): early return when neither
a connection nor a process is owned; close the connection under a caught
timeout; run the process teardown with `except ProcessLookupError: pass`;
finally clean up the temporary profile.  Returns the steps performed and
the exception escaping `stop`, if any. -/
def browser_stop (s : StopState) : List StopStep × Option PyExc :=
  if !s.hasConnection && !s.hasProcess then ([], none)
  else
    let c := if s.hasConnection then [StopStep.closeConnection] else []
    let pr :=
      if s.hasProcess then
        let r := stop_process_try s.proc
        (r.1,
          match r.2 with
          | some PyExc.processLookupError => (none : Option PyExc)
          | none => none)
      else ([], none)
    (c ++ pr.1 ++ [StopStep.cleanupProfile], pr.2)

/-- The handshake retry loop of `Browser.start` (browser.py lines
357-361): up to `k` attempts starting at attempt index `i`; `att j` is
the handshake info obtained by `test_connection` on attempt `j` (`none`
on failure).  The loop breaks at the first success. -/
def run_tries (att : Nat → Option String) : Nat → Nat → Option String
  | 0, _ => none
  | k + 1, i =>
    match att i with
    | some v => some v
    | none => run_tries att k (i + 1)

/-- The connection phase of `Browser.start` (browser.py lines 357-375):
run the retry loop; if `self.info` is still unset afterwards, call
`await self.stop()` (no root connection exists yet; the spawned process,
if any, is owned) and then raise.  Returns the stop steps performed and
the overall outcome. -/
def browser_start_connect (procOwned : Bool) (p : ProcModel) (maxTries : Nat)
    (att : Nat → Option String) : List StopStep × Except String String :=
  match run_tries att maxTries 0 with
  | some info => ([], .ok info)
  | none =>
    ((browser_stop ⟨false, procOwned, p⟩).1,
      .error "Failed to connect to browser")

/-- The event kinds `Browser.start` registers `_handle_target_update`
for when `autodiscover_targets` is set (browser.py lines 395-406). -/
inductive TargetEventKind where
  | created
  | infoChanged
  | destroyed
  | crashed
deriving Repr, DecidableEq

def autodiscover_handler_kinds : List TargetEventKind :=
  [.infoChanged, .created, .destroyed, .crashed]

/- Concrete targets and entries used in examples and witnesses. -/

def infoA : TargetInfo := ⟨"A", "page", "titleA", "urlA", true, none⟩
def infoA2 : TargetInfo := ⟨"A", "page", "titleA2", "urlA2", true, none⟩
def infoA3 : TargetInfo := ⟨"A", "page", "titleA3", "urlA3", false, none⟩
def infoB : TargetInfo := ⟨"B", "iframe", "titleB", "urlB", true, none⟩

def entryA : Tab := ⟨"ws://127.0.0.1:9222/devtools/page/A", infoA, 0, 1⟩
def entryB : Tab := ⟨"ws://127.0.0.1:9222/devtools/iframe/B", infoB, 2, 3⟩

def infoZ : TargetInfo := ⟨"Z", "page", "titleZ", "urlZ", true, none⟩

lemma insertDesc_ne_nil (key : Tab → Bool) (x : Tab) (l : Registry) :
    insertDesc key x l ≠ [] := by
  cases l with
  | nil => simp [insertDesc]
  | cons y ys =>
    unfold insertDesc
    split <;> simp

lemma browser_stop_never_raises (s : StopState) : (browser_stop s).2 = none := by
  rcases s with ⟨c, p, g, e, k⟩
  cases c <;> cases p <;> cases g <;> cases e <;> cases k <;> rfl

/-- C1: at effective logging level INFO (20) the sequence
Created(A,F1); InfoChanged(A,F2); InfoChanged(A,F3) leaves the entry's
fields at F1 (the assignment `current_tab.target = target_info` sits
inside the DEBUG-only logging block), and even at DEBUG level (10) the
final record is a fresh object (`recordId` 3, not the created record's 1):
the record is replaced wholesale, not merged in place. -/
theorem c1_infochanged_gated_by_log_level :
    handle_events 20 "127.0.0.1" 9222 ([], 0)
        [.created infoA, .infoChanged infoA2, .infoChanged infoA3] =
      .ok ([entryA], 2) ∧
    handle_events 10 "127.0.0.1" 9222 ([], 0)
        [.created infoA, .infoChanged infoA2, .infoChanged infoA3] =
      .ok ([⟨"ws://127.0.0.1:9222/devtools/page/A", infoA3, 0, 3⟩], 4) := by
  exact ⟨rfl, rfl⟩

/-- C3 (counterexample): an InfoChanged whose `target_id` matches no
tracked entry makes the handler raise `StopIteration` (from `next()` on
an exhausted filter), contradicting "no exception is raised or
propagated out of the handler". -/
theorem c3_unknown_target_raises :
    handle_target_update 20 "127.0.0.1" 9222 [entryA] 4 (.infoChanged infoZ) =
      .error "StopIteration" := rfl

/-- C3 (amended): a lifecycle event (InfoChanged or Destroyed) whose
`target_id` matches no tracked entry leaves the registry unchanged but
raises `StopIteration` out of the handler instead of being logged and
ignored. -/
theorem c3_unknown_target_behavior (lvl : Nat) (host : String) (port : Nat)
    (reg : Registry) (n : Nat) (info : TargetInfo) (tid : String) :
    (reg.find? (fun t => t.target.target_id == info.target_id) = none →
      handle_target_update lvl host port reg n (.infoChanged info) =
        .error "StopIteration") ∧
    (reg.find? (fun t => t.target.target_id == tid) = none →
      handle_target_update lvl host port reg n (.destroyed tid) =
        .error "StopIteration") := by
  constructor <;> intro h <;> simp [handle_target_update, h]

/-- C3 witness: the amended statement applied to the empty registry. -/
theorem c3_unknown_target_behavior_witness :
    handle_target_update 20 "127.0.0.1" 9222 [] 0 (.infoChanged infoZ) =
      .error "StopIteration" ∧
    handle_target_update 20 "127.0.0.1" 9222 [] 0 (.destroyed "Z") =
      .error "StopIteration" :=
  ⟨(c3_unknown_target_behavior 20 "127.0.0.1" 9222 [] 0 infoZ "Z").1 rfl,
   (c3_unknown_target_behavior 20 "127.0.0.1" 9222 [] 0 infoZ "Z").2 rfl⟩

/-- C4: `stop` never raises (`ProcessLookupError` is swallowed, timeouts
are caught) and is a no-op with nothing owned — but the kill condition is
inverted: with a process still alive 5s after terminate (`returncode`
still `None`) no `kill()` is issued, while a process that exited within
the wait (`returncode` set) *does* get `kill()` — the opposite of the
claim's "force-kill if and only if still alive after the wait". -/
theorem c4_kill_condition_inverted :
    (∀ s : StopState, (browser_stop s).2 = none) ∧
    browser_stop ⟨true, true, ⟨false, false, false⟩⟩ =
      ([StopStep.closeConnection, StopStep.terminate, StopStep.waitProcess,
        StopStep.cleanupProfile], none) ∧
    browser_stop ⟨true, true, ⟨false, true, false⟩⟩ =
      ([StopStep.closeConnection, StopStep.terminate, StopStep.waitProcess,
        StopStep.kill, StopStep.cleanupProfile], none) ∧
    browser_stop ⟨false, true, ⟨true, false, false⟩⟩ =
      ([StopStep.terminate, StopStep.cleanupProfile], none) ∧
    browser_stop ⟨false, false, ⟨false, false, false⟩⟩ = ([], none) :=
  ⟨browser_stop_never_raises, rfl, rfl, rfl, rfl⟩

/-- C6: a Created event appends exactly one new entry holding the event's
info verbatim, bound to `ws://{host}:{port}/devtools/{kind}/{target_id}`
with `kind` the reported kind or `"page"` when that is empty; the
existing entries are kept verbatim as the prefix. -/
theorem c6_created_builds_session (lvl : Nat) (host : String) (port : Nat)
    (reg : Registry) (n : Nat) (info : TargetInfo) :
    ∃ e : Tab,
      handle_target_update lvl host port reg n (.created info) =
        .ok (reg ++ [e], n + 2) ∧
      e.target = info ∧
      e.addr = "ws://" ++ host ++ ":" ++ toString port ++ "/devtools/" ++
        (if info.type_ == "" then "page" else info.type_) ++ "/" ++
        info.target_id :=
  ⟨_, rfl, rfl, rfl⟩

/-- C9 (counterexample): a Crashed event for a tracked target leaves the
registry exactly unchanged — no `isinstance` branch of the handler
matches `TargetCrashed`, so nothing is updated. -/
theorem c9_crashed_leaves_registry_unchanged :
    handle_target_update 20 "127.0.0.1" 9222 [entryA] 4 (.crashed "A" "crashed" 1) =
      .ok ([entryA], 4) := rfl

/-- C9 (amended): `start` does register the handler for the Crashed event
kind, but the handler has no branch for it and always returns with the
registry state unchanged. -/
theorem c9_crashed_registered_but_ignored :
    TargetEventKind.crashed ∈ autodiscover_handler_kinds ∧
    ∀ (lvl : Nat) (host : String) (port : Nat) (reg : Registry) (n : Nat)
      (tid st : String) (ec : Int),
      handle_target_update lvl host port reg n (.crashed tid st ec) =
        .ok (reg, n) := by
  refine ⟨by decide, ?_⟩
  intros
  rfl

/-- C10: `main_tab` on the empty registry raises IndexError (indexing
`[0]` into the empty sorted list); on any non-empty registry it returns
an entry. -/
theorem c10_main_tab_requires_nonempty :
    main_tab [] = .error "IndexError: list index out of range" ∧
    ∀ reg : Registry, reg ≠ [] → ∃ t, main_tab reg = .ok t := by
  refine ⟨rfl, ?_⟩
  intro reg h
  cases reg with
  | nil => exact absurd rfl h
  | cons x l =>
    have h2 := insertDesc_ne_nil isPage x (sortByPageDesc l)
    unfold main_tab
    have hs : sortByPageDesc (x :: l) = insertDesc isPage x (sortByPageDesc l) := rfl
    rw [hs]
    cases h3 : insertDesc isPage x (sortByPageDesc l) with
    | nil => exact absurd h3 h2
    | cons t ts => exact ⟨t, rfl⟩

/-- C10 witness: the theorem applied to the singleton registry. -/
theorem c10_main_tab_requires_nonempty_witness :
    ∃ t, main_tab [entryA] = .ok t :=
  c10_main_tab_requires_nonempty.2 [entryA] (by simp)

lemma insertDesc_split (key : Tab → Bool) (x : Tab) :
    ∀ (A B : Registry), (∀ a ∈ A, key a = true) → (∀ b ∈ B, key b = false) →
      insertDesc key x (A ++ B) =
        if key x then x :: (A ++ B) else A ++ x :: B := by
  intro A
  induction A with
  | nil =>
    intro B _ hB
    cases B with
    | nil => cases hx : key x <;> simp [insertDesc, hx]
    | cons b bs =>
      have hb : key b = false := hB b (by simp)
      cases hx : key x <;> simp [insertDesc, hb, hx]
  | cons a as IH =>
    intro B hA hB
    have ha : key a = true := hA a (by simp)
    cases hx : key x with
    | true => simp [insertDesc, ha, hx]
    | false =>
      have := IH B (fun a' ha' => hA a' (by simp [ha'])) hB
      simp [insertDesc, ha, hx, this]

lemma sortByPageDesc_split (reg : Registry) :
    sortByPageDesc reg =
      reg.filter isPage ++ reg.filter (fun t => !(isPage t)) := by
  induction reg with
  | nil => rfl
  | cons x l IH =>
    have hstep : sortByPageDesc (x :: l) = insertDesc isPage x (sortByPageDesc l) := rfl
    rw [hstep, IH,
      insertDesc_split isPage x (l.filter isPage) (l.filter (fun t => !(isPage t)))
        (fun a ha => (List.mem_filter.mp ha).2)
        (fun b hb => by simpa using (List.mem_filter.mp hb).2)]
    cases hx : isPage x <;> simp [List.filter_cons, hx]

lemma filter_head_eq_find (p : Tab → Bool) :
    ∀ l : Registry, (l.filter p).head? = l.find? p := by
  intro l
  induction l with
  | nil => rfl
  | cons x xs IH => cases hx : p x <;> simp [List.filter_cons, List.find?, hx, IH]

lemma filter_neg_of_all_neg (p : Tab → Bool) :
    ∀ l : Registry, (∀ a ∈ l, p a = false) → l.filter (fun t => !(p t)) = l := by
  intro l
  induction l with
  | nil => intro _; rfl
  | cons x xs IH =>
    intro h
    have hx : p x = false := h x (by simp)
    simp [List.filter_cons, hx, IH (fun a ha => h a (by simp [ha]))]

/-- C7: `tabs` is exactly the page-kind entries in tracked order (a
sublist of the registry whose members are precisely the page-kind
entries); `main_tab` is the first page-kind entry when one exists,
otherwise the first entry of any kind (the head of the stable
page-descending sort); and after Created(A, page), Created(B, iframe),
`tabs` is exactly the A entry and `main_tab` is the A entry. -/
theorem c7_tabs_and_main_tab :
    (∀ reg : Registry,
      List.Sublist (tabs reg) reg ∧
      ∀ t, t ∈ tabs reg ↔ (t ∈ reg ∧ isPage t = true)) ∧
    (∀ reg : Registry,
      main_tab reg =
        match reg.find? isPage with
        | some t => Except.ok t
        | none =>
          match reg with
          | [] => Except.error "IndexError: list index out of range"
          | t :: _ => Except.ok t) ∧
    (handle_events 20 "127.0.0.1" 9222 ([], 0) [.created infoA, .created infoB] =
        .ok ([entryA, entryB], 4) ∧
      tabs [entryA, entryB] = [entryA] ∧
      main_tab [entryA, entryB] = .ok entryA) := by
  refine ⟨?_, ?_, rfl, rfl, rfl⟩
  · intro reg
    exact ⟨List.filter_sublist reg, fun t => by simp [tabs, List.mem_filter]⟩
  · intro reg
    unfold main_tab
    rw [sortByPageDesc_split]
    cases hf : reg.find? isPage with
    | some t =>
      have hh : (reg.filter isPage).head? = some t := by
        rw [filter_head_eq_find]; exact hf
      cases hA : reg.filter isPage with
      | nil => simp [hA] at hh
      | cons a rest =>
        have hat : a = t := by simpa [hA] using hh
        subst hat
        simp [hA]
    | none =>
      have hall : ∀ a ∈ reg, isPage a = false := by
        intro a ha
        have hh := List.find?_eq_none.mp hf a ha
        simpa using hh
      have hAnil : reg.filter isPage = [] := by
        cases hA : reg.filter isPage with
        | nil => rfl
        | cons a rest =>
          have hh : (reg.filter isPage).head? = none := by
            rw [filter_head_eq_find]; exact hf
          simp [hA] at hh
      rw [hAnil, filter_neg_of_all_neg isPage reg hall]
      cases reg <;> simp

lemma mergeFirstTarget_mem_of_ne (info : TargetInfo) :
    ∀ (reg : Registry) (e : Tab), e ∈ reg →
      e.target.target_id ≠ info.target_id → e ∈ mergeFirstTarget info reg := by
  intro reg
  induction reg with
  | nil => intro e he _; simp at he
  | cons t ts IH =>
    intro e he hne
    rcases List.mem_cons.mp he with he | he
    · subst he
      cases ht : (e.target.target_id == info.target_id) with
      | true => exact absurd (by simpa using ht) hne
      | false => simp [mergeFirstTarget, ht]
    · unfold mergeFirstTarget
      split
      · exact List.mem_cons_of_mem _ he
      · exact List.mem_cons_of_mem _ (IH e he hne)

lemma mergeFirstTarget_entry (info : TargetInfo) :
    ∀ (reg : Registry) (e : Tab), e ∈ reg →
      ∃ e', e' ∈ mergeFirstTarget info reg ∧
        e'.entryId = e.entryId ∧ e'.addr = e.addr := by
  intro reg
  induction reg with
  | nil => intro e he; simp at he
  | cons t ts IH =>
    intro e he
    rcases List.mem_cons.mp he with he | he
    · subst he
      cases ht : (e.target.target_id == info.target_id) with
      | true => exact ⟨{ e with target := info }, by simp [mergeFirstTarget, ht], rfl, rfl⟩
      | false => exact ⟨e, by simp [mergeFirstTarget, ht], rfl, rfl⟩
    · unfold mergeFirstTarget
      split
      · exact ⟨e, List.mem_cons_of_mem _ he, rfl, rfl⟩
      · obtain ⟨e', he', h1, h2⟩ := IH e he
        exact ⟨e', List.mem_cons_of_mem _ he', h1, h2⟩

lemma update_targets_preserves_unmatched :
    ∀ (snap : List TargetInfo) (host : String) (port : Nat)
      (reg : Registry) (n : Nat) (e : Tab), e ∈ reg →
      (∀ s ∈ snap, s.target_id ≠ e.target.target_id) →
      e ∈ (update_targets host port (reg, n) snap).1 := by
  intro snap
  induction snap with
  | nil => intro host port reg n e he _; simpa [update_targets] using he
  | cons t ts IH =>
    intro host port reg n e he hs
    unfold update_targets
    cases h : reg.any (fun x => x.target.target_id == t.target_id) with
    | true =>
      simp only [h, if_true]
      exact IH host port _ n e
        (mergeFirstTarget_mem_of_ne t reg e he (Ne.symm (hs t (by simp))))
        (fun s hsm => hs s (by simp [hsm]))
    | false =>
      simp only [h, Bool.false_eq_true, if_false]
      exact IH host port _ _ e (List.mem_append_left _ he)
        (fun s hsm => hs s (by simp [hsm]))

lemma update_targets_keeps_entries :
    ∀ (snap : List TargetInfo) (host : String) (port : Nat)
      (reg : Registry) (n : Nat) (e : Tab), e ∈ reg →
      ∃ e', e' ∈ (update_targets host port (reg, n) snap).1 ∧
        e'.entryId = e.entryId ∧ e'.addr = e.addr := by
  intro snap
  induction snap with
  | nil => intro host port reg n e he; exact ⟨e, by simpa [update_targets] using he, rfl, rfl⟩
  | cons t ts IH =>
    intro host port reg n e he
    unfold update_targets
    cases h : reg.any (fun x => x.target.target_id == t.target_id) with
    | true =>
      simp only [h, if_true]
      obtain ⟨e₁, he₁, h1, h2⟩ := mergeFirstTarget_entry t reg e he
      obtain ⟨e', he', h1', h2'⟩ := IH host port _ n e₁ he₁
      exact ⟨e', he', h1'.trans h1, h2'.trans h2⟩
    | false =>
      simp only [h, Bool.false_eq_true, if_false]
      exact IH host port _ _ e (List.mem_append_left _ he)

/-- C2: the reconciliation pass only merges into existing entries or
appends new ones.  Every tracked entry whose `target_id` is absent from
the snapshot stays in the registry verbatim; every tracked entry survives
the pass (same entry identity and address) — the pass never removes an
entry.  In particular registry {A, B} with snapshot {A'} yields
{A merged with A' (record identity preserved), B unchanged}. -/
theorem c2_update_targets_never_removes (host : String) (port : Nat)
    (reg : Registry) (n : Nat) (snap : List TargetInfo) :
    (∀ e ∈ reg, (∀ s ∈ snap, s.target_id ≠ e.target.target_id) →
      e ∈ (update_targets host port (reg, n) snap).1) ∧
    (∀ e ∈ reg, ∃ e', e' ∈ (update_targets host port (reg, n) snap).1 ∧
      e'.entryId = e.entryId ∧ e'.addr = e.addr) ∧
    update_targets "127.0.0.1" 9222 ([entryA, entryB], 4) [infoA2] =
      ([⟨"ws://127.0.0.1:9222/devtools/page/A", infoA2, 0, 1⟩, entryB], 4) :=
  ⟨fun e he hs => update_targets_preserves_unmatched snap host port reg n e he hs,
   fun e he => update_targets_keeps_entries snap host port reg n e he,
   rfl⟩

/-- C2 witness: with registry {A, B} and snapshot {A'}, the B entry (whose
id is absent from the snapshot) is still present after the pass. -/
theorem c2_update_targets_never_removes_witness :
    entryB ∈ (update_targets "127.0.0.1" 9222 ([entryA, entryB], 4) [infoA2]).1 :=
  (c2_update_targets_never_removes "127.0.0.1" 9222 [entryA, entryB] 4 [infoA2]).1
    entryB (by simp) (by intro s hs; simp at hs; subst hs; decide)

lemma run_tries_all_none (att : Nat → Option String) :
    ∀ (k i : Nat), (∀ j, j < k → att (i + j) = none) → run_tries att k i = none := by
  intro k
  induction k with
  | zero => intro i _; rfl
  | succ m IH =>
    intro i h
    have h0 : att i = none := by simpa using h 0 (Nat.succ_pos m)
    unfold run_tries
    rw [h0]
    exact IH (i + 1) (fun j hj => by
      have := h (j + 1) (Nat.succ_lt_succ hj)
      rwa [show i + 1 + j = i + (j + 1) by omega])

lemma terminate_mem_stop_process (p : ProcModel) :
    StopStep.terminate ∈ (stop_process_try p).1 := by
  rcases p with ⟨g, e, k⟩
  cases g <;> cases e <;> cases k <;> decide

/-- C5: when every one of the `max_tries` connection attempts fails (no
handshake info is obtained), `start` raises after first running `stop`,
whose process teardown sends the terminate signal to the spawned process
whenever one is owned — a failing `start` does not leave the spawned
process untouched. -/
theorem c5_failed_start_stops_process (procOwned : Bool) (p : ProcModel)
    (maxTries : Nat) (att : Nat → Option String) :
    (∀ j, j < maxTries → att j = none) →
    (browser_start_connect procOwned p maxTries att).2 =
      .error "Failed to connect to browser" ∧
    (procOwned = true →
      StopStep.terminate ∈ (browser_start_connect procOwned p maxTries att).1) := by
  intro h
  have hr : run_tries att maxTries 0 = none :=
    run_tries_all_none att maxTries 0 (fun j hj => by simpa using h j hj)
  unfold browser_start_connect
  rw [hr]
  refine ⟨rfl, ?_⟩
  intro hpo
  subst hpo
  show StopStep.terminate ∈ (browser_stop ⟨false, true, p⟩).1
  unfold browser_stop
  simp only [Bool.not_false, Bool.not_true, Bool.false_and, Bool.and_false]
  exact List.mem_append_left _ (List.mem_append_right _ (terminate_mem_stop_process p))

/-- C5 witness: three attempts, all failing, with a spawned process. -/
theorem c5_failed_start_stops_process_witness :
    (browser_start_connect true ⟨false, false, false⟩ 3 (fun _ => none)).2 =
      .error "Failed to connect to browser" ∧
    StopStep.terminate ∈
      (browser_start_connect true ⟨false, false, false⟩ 3 (fun _ => none)).1 := by
  have h := c5_failed_start_stops_process true ⟨false, false, false⟩ 3
    (fun _ => none) (fun j _ => rfl)
  exact ⟨h.1, h.2 rfl⟩

/-- C8: on a started browser with neither flag set and at least one
page-kind tracked entry, `get(url)` selects the first page-kind entry,
sends `page.navigate(url)` on that entry's session, runs the fixed settle
sleep, and returns that entry. -/
theorem c8_get_navigates_first_page (reg : Registry) (ctid url : String) :
    (∃ t ∈ reg, isPage t) →
    ∃ e, reg.find? isPage = some e ∧ e ∈ reg ∧ isPage e = true ∧
      browser_get true reg ctid url false false =
        .ok ([GetAction.navigate url e.entryId, GetAction.sleepSettle], e) := by
  intro h
  cases hf : reg.find? isPage with
  | none =>
    obtain ⟨t, ht, hp⟩ := h
    exact absurd hp (by simpa using List.find?_eq_none.mp hf t ht)
  | some e =>
    refine ⟨e, rfl, List.mem_of_find?_eq_some hf, List.find?_some hf, ?_⟩
    simp [browser_get, hf]

/-- C8 witness: the theorem applied to the singleton page registry. -/
theorem c8_get_navigates_first_page_witness :
    ∃ e, ([entryA] : Registry).find? isPage = some e ∧ e ∈ [entryA] ∧
      isPage e = true ∧
      browser_get true [entryA] "X" "https://example.org" false false =
        .ok ([GetAction.navigate "https://example.org" e.entryId,
          GetAction.sleepSettle], e) :=
  c8_get_navigates_first_page [entryA] "X" "https://example.org"
    ⟨entryA, by simp, by decide⟩
